import Mathlib

/-!
Shallow embedding of the ez-oauth discovery/flow core.

The embedding translates, from the TypeScript source:
  * `src/discovery` (part_002): `requestResourceIdFromIssuer`, `payloadToResult`,
    `verifySignedMetadata`, `OAuthDiscovery.getProtectedResourceDiscovery`,
    `OAuthDiscovery.resolveAuthorizationServerUrl`;
  * `src/OAuthConfig.ts`: the static LRU-cached
    `OAuthConfig.getProtectedResourceDiscovery`;
  * `src/state/OAuthState.ts` (in `OAuthConfig.ts` bundle): `OAuthState`;
  * `src/OAuthClient.ts`: `createAuthorizationUrl` query construction and
    persistence ordering, `getTokensFromCodeGrant`, `fromStorage`.

External capabilities (HTTP fetch, JSON.parse, jose JWT decode/verify,
`crypto` randomness, SHA-256 PKCE challenge, URL parsing) are modelled as
explicit inputs: a call's HTTP response, a JSON document already parsed
(`none` = parse failure), a `JwtEnv` of decode/verify functions, a `Rand`
record of the values the secure random source produced, and an abstract
hash `H : String → String` for the PKCE challenge derivation.
-/

namespace EzOAuth

/-- JavaScript `String.prototype.includes` over explicit character lists:
`leadMatch pat hay` is true when `pat` is an initial segment of `hay`. -/
def leadMatch : List Char → List Char → Bool
  | [], _ => true
  | _ :: _, [] => false
  | a :: as, b :: bs => a == b && leadMatch as bs

/-- `containsSub hay pat` is true when `pat` occurs contiguously in `hay`. -/
def containsSub : List Char → List Char → Bool
  | [], pat => pat.isEmpty
  | h :: t, pat => leadMatch pat (h :: t) || containsSub t pat

/-- JS `s.includes(pat)` (used for the Content-Type media-type test). -/
def strIncludes (s pat : String) : Bool :=
  containsSub s.data pat.data

/-- Drop a single trailing `'/'` character, if any: models the regex
`.replace(/\/$/, "")` in `requestResourceIdFromIssuer`. -/
def stripTrailingSlashList : List Char → List Char
  | [] => []
  | [c] => if c = '/' then [] else [c]
  | c :: rest => c :: stripTrailingSlashList rest

/-- String form of `stripTrailingSlashList`. -/
def stripTrailingSlash (s : String) : String :=
  ⟨stripTrailingSlashList s.data⟩

/-- The result of JS `new URL(...)` parsing, restricted to the two components
the discovery code reads (`origin` and `pathname`). URL parsing itself is an
external runtime primitive, so functions take the parsed value as input. -/
structure URLM where
  origin : String
  pathname : String
deriving DecidableEq, Repr

/-- A JSON field value as the discovery code type-tests it: a string, an
array of strings, or anything else (which every `typeof`/`Array.isArray`
test rejects and every truthiness test treats as falsy). -/
inductive JSVal where
  | str (s : String)
  | arr (xs : List String)
  | other
deriving DecidableEq, Repr

/-- `application/oauth-protected-resource-jwt` (part_002 line 15). -/
def PROTECTED_RESOURCE_DISCOVERY_JWT_MEDIA_TYPE : String :=
  "application/oauth-protected-resource-jwt"

/-- `application/oauth-protected-resource+json` (part_002 line 18). -/
def PROTECTED_RESOURCE_DISCOVERY_JSON_MEDIA_TYPE : String :=
  "application/oauth-protected-resource+json"

/-- `requestResourceIdFromIssuer` (part_002 lines 66-79): canonical resource
identifier from the issuer's origin+pathname, single trailing slash stripped,
optional resource path appended. JS truthiness of the optional string
parameter: `undefined` and `""` are both falsy. -/
def requestResourceIdFromIssuer (u : URLM) (resourcePath : Option String) : String :=
  let id := stripTrailingSlash (u.origin ++ u.pathname)
  match resourcePath with
  | some p =>
      if p ≠ "" then
        if id ≠ "" then id ++ "/" ++ p else u.origin ++ "/" ++ p
      else id
  | none => id

/-- `SignedMetadataPayload` (part_002 lines 56-64): the claim set of a signed
metadata JWT, each field possibly absent and of arbitrary JSON type.
`resource_endpoints` / `resource_signing_alg_values_supported` are only ever
truthiness-tested and cast, so they are modelled at their declared type. -/
structure SMPayload where
  iss : Option JSVal := none
  resource : Option JSVal := none
  authorization_servers : Option JSVal := none
  bearer_methods_supported : Option JSVal := none
  resource_documentation : Option JSVal := none
  resource_endpoints : Option (List String) := none
  resource_signing_alg_values_supported : Option (List String) := none
deriving DecidableEq, Repr

/-- The runtime value of a `ProtectedResourceDiscoveryResult` (part_002 lines
26-33). `bearer_methods_supported` and `resource_documentation` keep the raw
JSON value they had at runtime (the TS cast is unchecked on the plain-JSON
path), so they are `Option JSVal`; `none` means the key is absent. -/
structure PRResult where
  resource : String
  authorization_servers : List String
  bearer_methods_supported : Option JSVal := none
  resource_documentation : Option JSVal := none
  resource_endpoints : Option (List String) := none
  resource_signing_alg_values_supported : Option (List String) := none
deriving DecidableEq, Repr

/-- `payloadToResult` (part_002 lines 81-117): normalize a signed payload.
Requires a string `resource` and a non-empty array `authorization_servers`;
defaults `bearer_methods_supported` to `["header"]` and
`resource_documentation` to `""`; spreads the two optional fields only when
truthy (a present array, even empty, is truthy in JS). -/
def payloadToResult (p : SMPayload) : Option PRResult :=
  match p.resource, p.authorization_servers with
  | some (.str r), some (.arr as) =>
      if as.isEmpty then none
      else
        some {
          resource := r
          authorization_servers := as
          bearer_methods_supported :=
            some (.arr (match p.bearer_methods_supported with
              | some (.arr bs) => if bs.isEmpty then ["header"] else bs
              | _ => ["header"]))
          resource_documentation :=
            some (.str (match p.resource_documentation with
              | some (.str d) => d
              | _ => ""))
          resource_endpoints := p.resource_endpoints
          resource_signing_alg_values_supported :=
            p.resource_signing_alg_values_supported }
  | _, _ => none

/-- Verification policy (part_002 lines 41-45): either a fixed JWKS (object
or remote URI) or a `getKey(issuer)` callback. Key material lives inside
the external verifier, so only the branch taken is recorded. -/
inductive JwtOpts where
  | jwks
  | getKey
deriving DecidableEq, Repr

/-- The external jose capability: `decodeJwt` (unverified claims, may throw
on malformed input) and the composite key-resolution + `jwtVerify` step
(which may fail with a verification error). Errors are their messages. -/
structure JwtEnv where
  decode : String → Except String SMPayload
  verify : String → Except String SMPayload

/-- Binding check at the end of `verifySignedMetadata` (part_002 lines
149-155): drop the result when absent or when its `resource` differs from
the request identifier. -/
def bindCheck (r : Option PRResult) (requestResourceId : String) : Option PRResult :=
  match r with
  | some x => if x.resource = requestResourceId then some x else none
  | none => none

/-- `verifySignedMetadata` (part_002 lines 119-156). With `getKey` options it
first decodes unverified claims and returns `null` unless `iss` is a string;
then (either branch) verification errors propagate and the verified payload
is normalized and bound to the request identifier. -/
def verifySignedMetadata (env : JwtEnv) (jwt : String) (o : JwtOpts)
    (requestResourceId : String) : Except String (Option PRResult) :=
  match o with
  | .getKey =>
      match env.decode jwt with
      | .error e => .error e
      | .ok unverified =>
          match unverified.iss with
          | some (.str _) =>
              match env.verify jwt with
              | .error e => .error e
              | .ok payload => .ok (bindCheck (payloadToResult payload) requestResourceId)
          | _ => .ok none
  | .jwks =>
      match env.verify jwt with
      | .error e => .error e
      | .ok payload => .ok (bindCheck (payloadToResult payload) requestResourceId)

/-- The parsed plain-JSON discovery document (part_002 lines 239-241):
`ProtectedResourceDiscoveryResult & { signed_metadata?: string }` with every
field at its runtime (unchecked) type. -/
structure JsonDoc where
  signed_metadata : Option String := none
  resource : Option JSVal := none
  authorization_servers : Option JSVal := none
  bearer_methods_supported : Option JSVal := none
  resource_documentation : Option JSVal := none
  resource_endpoints : Option (List String) := none
  resource_signing_alg_values_supported : Option (List String) := none
deriving DecidableEq, Repr

/-- JS truthiness of an optional string (`undefined`, `null` and `""` are
falsy). -/
def truthyStr : Option String → Bool
  | some s => s ≠ ""
  | none => false

/-- The HTTP response a discovery call observed: status-ok flag, the
`Content-Type` header (`none` when absent), the raw text body, the JSON
parse of the body (`none` = `JSON.parse` failure) and the final URL. -/
structure Response where
  ok : Bool
  contentType : Option String := none
  textBody : String := ""
  jsonBody : Option JsonDoc := none
  url : String := ""
deriving DecidableEq, Repr

/-- Errors `OAuthDiscovery.getProtectedResourceDiscovery` can throw:
the two "Verification required" errors, the catch-all
"Invalid protected resource discovery: <url>", and a propagated jose
verification error (JWT-body path, outside the try/catch). -/
inductive DiscErr where
  | verificationRequired (msg : String)
  | invalidDocument (url : String)
  | jose (msg : String)
deriving DecidableEq, Repr

/-- Message of the "Verification required" error for the JWT media type
(part_002 lines 228-230). -/
def verificationRequiredJwtMsg : String :=
  "Verification required for application/oauth-protected-resource-jwt. Pass options.jwt with jwks or getKey to verify the signature (RFC 9728 Section 3.3)."

/-- Message of the "Verification required" error for a `signed_metadata`
claim (part_002 lines 245-247). -/
def verificationRequiredSignedMetadataMsg : String :=
  "Verification required for signed_metadata. Pass options.jwt with jwks or getKey to verify the signature (RFC 9728 Section 3.3)."

/-- The spread `{ ...rest, ...merged }` (part_002 lines 257-258): every key of
`merged` wins; `merged` always carries `resource`, `authorization_servers`,
`bearer_methods_supported` and `resource_documentation` (it is a
`payloadToResult` output), and carries the two optional fields only when the
signed payload had them truthy, so only those two can fall back to the plain
document's values. -/
def mergeOver (json : JsonDoc) (m : PRResult) : PRResult :=
  { resource := m.resource
    authorization_servers := m.authorization_servers
    bearer_methods_supported := m.bearer_methods_supported
    resource_documentation := m.resource_documentation
    resource_endpoints :=
      match m.resource_endpoints with
      | some v => some v
      | none => json.resource_endpoints
    resource_signing_alg_values_supported :=
      match m.resource_signing_alg_values_supported with
      | some v => some v
      | none => json.resource_signing_alg_values_supported }

/-- `OAuthDiscovery.getProtectedResourceDiscovery` (part_002 lines 202-278),
given the observed HTTP response. `optsJwt` collapses `options?.jwt`.
The issuer is taken as an already-parsed URL value; note the source computes
`requestResourceId` from the issuer argument as given in a string-issuer
call (a `URL`-object issuer would be mutated by the pathname assignment on
line 211 before line 212 reads it; that aliasing is outside this model,
which covers string issuers, as used by every caller and test).
Inside the plain-JSON `try` block, a thrown error is re-thrown as-is only
when its message starts with `"Verification required"` (part_002 lines
272-277); jose errors never do, so they surface as the invalid-document
error. -/
def getProtectedResourceDiscovery (issuer : URLM) (resourcePath : Option String)
    (optsJwt : Option JwtOpts) (env : JwtEnv) (res : Response) :
    Except DiscErr (Option PRResult) :=
  let requestResourceId := requestResourceIdFromIssuer issuer resourcePath
  if !res.ok then .ok none
  else
    let ct := res.contentType.getD ""
    if strIncludes ct PROTECTED_RESOURCE_DISCOVERY_JWT_MEDIA_TYPE then
      match optsJwt with
      | none => .error (.verificationRequired verificationRequiredJwtMsg)
      | some o =>
          match verifySignedMetadata env res.textBody o requestResourceId with
          | .error e => .error (.jose e)
          | .ok r => .ok r
    else
      match res.jsonBody with
      | none => .error (.invalidDocument res.url)
      | some json =>
          if truthyStr json.signed_metadata then
            match optsJwt with
            | none => .error (.verificationRequired verificationRequiredSignedMetadataMsg)
            | some o =>
                match verifySignedMetadata env (json.signed_metadata.getD "") o
                    requestResourceId with
                | .error _ => .error (.invalidDocument res.url)
                | .ok (some merged) => .ok (some (mergeOver json merged))
                | .ok none => .ok none
          else
            match json.resource, json.authorization_servers with
            | some (.str r), some (.arr as) =>
                if as.isEmpty then .ok none
                else
                  .ok (some {
                    resource := r
                    authorization_servers := as
                    bearer_methods_supported := json.bearer_methods_supported
                    resource_documentation := json.resource_documentation
                    resource_endpoints := json.resource_endpoints
                    resource_signing_alg_values_supported :=
                      json.resource_signing_alg_values_supported })
            | _, _ => .ok none

/-- Discovery algorithm selector (part_002 lines 158-160). -/
inductive Algorithm where
  | oidc
  | oauth2
  | protectedResource
deriving DecidableEq, Repr

/-- Errors of `resolveAuthorizationServerUrl`: a propagated discovery error
or the `assert.ok` failure. -/
inductive ResolveErr where
  | disc (e : DiscErr)
  | assertion (msg : String)
deriving DecidableEq, Repr

/-- `OAuthDiscovery.resolveAuthorizationServerUrl` (part_002 lines 286-308).
For `protected-resource` it runs discovery against the observed response,
asserts a non-null result with a non-empty `authorization_servers`, and
parses the first entry with `new URL(...)` (the external parser `parseURL`);
otherwise it returns `toURL(issuer)`, which for an already-parsed issuer is
the issuer itself, touching neither `env` nor `res`. -/
def resolveAuthorizationServerUrl (parseURL : String → URLM) (issuer : URLM)
    (alg : Algorithm) (resourcePath : Option String) (prJwt : Option JwtOpts)
    (env : JwtEnv) (res : Response) : Except ResolveErr URLM :=
  match alg with
  | .protectedResource =>
      match getProtectedResourceDiscovery issuer resourcePath prJwt env res with
      | .error e => .error (.disc e)
      | .ok none => .error (.assertion "No authorization servers found")
      | .ok (some r) =>
          match r.authorization_servers with
          | [] => .error (.assertion "No authorization servers found")
          | a :: _ => .ok (parseURL a)
  | _ => .ok issuer

/-! ### OAuthState (FlowState) -/

/-- The values the cryptographically secure random source would produce for
one `OAuthState` construction (`client.randomState()`, `client.randomNonce()`,
`client.randomPKCECodeVerifier()` are external capabilities). -/
structure Rand where
  randState : String
  randNonce : String
  randVerifier : String
deriving DecidableEq, Repr

/-- The `toJSON` record of an `OAuthState` / the `Partial<OAuthStateOptions>`
accepted by its constructor. `none` models an absent/undefined field
(`JSON.stringify` drops an undefined `pkce`). -/
structure StateJson where
  name : String := "OAuthState"
  state : Option String := none
  nonce : Option String := none
  pkce : Option String := none
  codeVerifier : Option String := none
deriving DecidableEq, Repr

/-- Runtime `OAuthState` value: `state`, `nonce`, `codeVerifier` strings and
the memoized `_pkce` (`none` = not yet computed). -/
structure OAuthStateM where
  state : String
  nonce : String
  codeVerifier : String
  pkce : Option String := none
deriving DecidableEq, Repr

/-- The `OAuthState` constructor (OAuthConfig.ts bundle lines 294-302):
each field falls back to the random source via `??` when the options object
is absent or the field is nullish. -/
def OAuthState.ofOptions (rand : Rand) (options : Option StateJson) : OAuthStateM :=
  { state := (options.bind (·.state)).getD rand.randState
    nonce := (options.bind (·.nonce)).getD rand.randNonce
    codeVerifier := (options.bind (·.codeVerifier)).getD rand.randVerifier
    pkce := options.bind (·.pkce) }

/-- `OAuthState.fromJSON` (bundle lines 336-338): `new OAuthState(json)`. -/
def OAuthState.fromJSON (rand : Rand) (json : StateJson) : OAuthStateM :=
  OAuthState.ofOptions rand (some json)

/-- `OAuthState.toJSON` (bundle lines 318-326). -/
def OAuthState.toJSON (s : OAuthStateM) : StateJson :=
  { name := "OAuthState"
    state := some s.state
    nonce := some s.nonce
    pkce := s.pkce
    codeVerifier := some s.codeVerifier }

/-- `OAuthState.getCodeChallenge` (bundle lines 304-312), with the external
`client.calculatePKCECodeChallenge` as the deterministic hash `H`.
Returns the challenge together with the post-call state (the memoization
write). JS truthiness: a memoized `""` would be recomputed. -/
def OAuthState.getCodeChallenge (H : String → String) (s : OAuthStateM) :
    String × OAuthStateM :=
  match s.pkce with
  | some p =>
      if p = "" then
        let c := H s.codeVerifier
        (c, { s with pkce := some c })
      else (p, s)
  | none =>
      let c := H s.codeVerifier
      (c, { s with pkce := some c })

/-- `OAuthState.CODE_CHALLENGE_METHOD` (bundle line 287). -/
def OAuthState.CODE_CHALLENGE_METHOD : String := "S256"

/-! ### OAuthClient.createAuthorizationUrl: query parameters -/

/-- The slice of a `ClientConfiguration` that `createAuthorizationUrl` reads:
redirect URI (as a string), scopes, additional parameters (an ordered record,
spread last in the object literal), and the PKCE-support flag. -/
structure ClientConfigM where
  redirectUri : String
  scopes : List String
  additionalParams : List (String × String) := []
  supportsPKCE : Bool
deriving DecidableEq, Repr

/-- Object-literal / `URLSearchParams.set` update on a duplicate-free
parameter list: a later binding for an existing key overrides the value in
place, a new key is appended at the end. -/
def upsert : List (String × String) → (String × String) → List (String × String)
  | [], kv => [kv]
  | p :: ps, kv => if p.1 = kv.1 then kv :: ps else p :: upsert ps kv

/-- First value bound to `k` in the parameter list (`URLSearchParams.get`). -/
def getParam (ps : List (String × String)) (k : String) : Option String :=
  match ps with
  | [] => none
  | (k', v) :: rest => if k' = k then some v else getParam rest k

/-- The query parameters `OAuthClient.createAuthorizationUrl` builds
(OAuthClient.ts lines 48-59): the object literal (with
`additionalParams` spread last, overriding same-name keys), then
`params.set("nonce", ...)` only when the configuration does not support
PKCE. URL construction itself is delegated to openid-client. -/
def createAuthorizationUrlParams (cfg : ClientConfigM) (fs : OAuthStateM)
    (H : String → String) (scopeSeparator : String) : List (String × String) :=
  let base : List (String × String) :=
    [("redirect_uri", cfg.redirectUri),
     ("scope", String.intercalate scopeSeparator cfg.scopes),
     ("code_challenge", (OAuthState.getCodeChallenge H fs).1),
     ("state", fs.state),
     ("code_challenge_method", OAuthState.CODE_CHALLENGE_METHOD)]
  let withAdd := cfg.additionalParams.foldl upsert base
  if !cfg.supportsPKCE then upsert withAdd ("nonce", fs.nonce) else withAdd

/-! ### OAuthClient.createAuthorizationUrl: persistence ordering -/

/-- Whether a configured `StorageProvider.save` settles synchronously (plain
`void` return, e.g. `MemoryStorageProvider`) or returns a promise that
settles on a later tick (e.g. a Redis-backed provider). -/
inductive StorageKind where
  | sync
  | async
deriving DecidableEq, Repr

/-- Observable events of one `createAuthorizationUrl` run. -/
inductive FlowEv where
  | saveInvoked
  | saveSettled
  | urlReturned
deriving DecidableEq, Repr

/-- Event order of `createAuthorizationUrl` (OAuthClient.ts lines 43-76) for
each storage situation. `saveState` invokes `this.storage.save(...)` without
awaiting the returned promise (line 68), so `await this.saveState()` resumes
as soon as `saveState`'s body returns: with a synchronous provider the save
has already settled then; with an asynchronous provider the save promise is
still pending when the URL is returned and settles afterwards (a rejection
becomes an unhandled rejection, not an error thrown to the caller). -/
def createAuthorizationUrlEvents (storage : Option StorageKind) : List FlowEv :=
  match storage with
  | none => [.urlReturned]
  | some .sync => [.saveInvoked, .saveSettled, .urlReturned]
  | some .async => [.saveInvoked, .urlReturned, .saveSettled]

/-- `a` occurs in `tr` and its first occurrence is before the first
occurrence of `b`. -/
def occursBefore (a b : FlowEv) (tr : List FlowEv) : Bool :=
  tr.contains a && tr.contains b && tr.indexOf a < tr.indexOf b

/-! ### OAuthClient.getTokensFromCodeGrant -/

/-- Outcome of the external `client.authorizationCodeGrant` call: success,
a `client.ClientError` (with the message of its cause, and the parsed HTTP
error body when the cause was an `HTTPError` with a parsable body), or any
other thrown error. -/
inductive GrantOutcome where
  | success (tokens : String)
  | clientError (causeMsg : String) (reason : Option String)
  | otherError (msg : String)
deriving DecidableEq, Repr

/-- `OAuthClientError` (part_005 lines 1-13): message, original cause,
optional parsed provider reason. -/
structure OAuthClientErrorM where
  message : String
  cause : String
  reason : Option String
deriving DecidableEq, Repr

/-- `OAuthClient.getTokensFromCodeGrant` (OAuthClient.ts lines 78-109):
success returns the tokens; a `ClientError` is wrapped into an
`OAuthClientError`; any other thrown error is caught by the `catch` block,
which rethrows nothing for it, so the call resolves to `undefined`
(modelled `.ok none`). -/
def getTokensFromCodeGrant (o : GrantOutcome) :
    Except OAuthClientErrorM (Option String) :=
  match o with
  | .success t => .ok (some t)
  | .clientError causeMsg reason =>
      .error { message := "Failed to get tokens from code grant"
               cause := causeMsg
               reason := reason }
  | .otherError _ => .ok none

/-! ### OAuthClient.fromStorage -/

/-- What `fromStorage` observed from `storage.get` + `JSON.parse`:
no entry (`null` or `""`, both falsy), an unparsable entry (`SyntaxError`),
an entry parsing to a falsy JSON value, or a parsed object with optional
`state` and `config` sub-records (the config sub-record is opaque here). -/
inductive StoreRead where
  | missing
  | unparsable
  | parsedFalsy
  | parsedObj (state : Option StateJson) (config : Option String)
deriving DecidableEq, Repr

/-- Errors `OAuthClient.fromStorage` can throw: an `OAuthStateError`
(part_005 lines 14-19), the `Error("Invalid state entry")` wrapping a
`SyntaxError`, or the `TypeError` raised by `OAuthConfig.fromJSON` reading
`json.client.client_id` of an undefined record (OAuthConfig.ts lines
248-253). -/
inductive FromStorageErr where
  | stateError (msg : String)
  | invalidEntry
  | typeError (msg : String)
deriving DecidableEq, Repr

/-- A reconstructed client: its `OAuthState` and the (opaque) config record
`ConfigClass.fromJSON` consumed. -/
structure OAuthClientM where
  state : OAuthStateM
  config : String
deriving DecidableEq, Repr

/-- `OAuthClient.fromStorage` (OAuthClient.ts lines 135-169). Note the
validity check on line 154 rejects only when **both** the `state` and
`config` keys are missing (`!("state" in json) && !("config" in json)`);
otherwise `StateClass.fromJSON(json.state)` runs — which for an undefined
`json.state` constructs a state from fresh random material — and
`ConfigClass.fromJSON(json.config)` throws a `TypeError` when `json.config`
is undefined. The outer catch rethrows everything except `SyntaxError`. -/
def OAuthClient.fromStorage (rand : Rand) (key : String) (read : StoreRead) :
    Except FromStorageErr OAuthClientM :=
  match read with
  | .missing => .error (.stateError ("State " ++ key ++ " not found"))
  | .unparsable => .error .invalidEntry
  | .parsedFalsy => .error (.stateError ("State " ++ key ++ " not found"))
  | .parsedObj st cf =>
      if st.isNone && cf.isNone then
        .error (.stateError ("State " ++ key ++ " is invalid"))
      else
        let state := OAuthState.ofOptions rand st
        match cf with
        | none =>
            .error (.typeError "Cannot read properties of undefined (reading client_id)")
        | some c => .ok { state := state, config := c }

/-! ### OAuthConfig.getProtectedResourceDiscovery (static LRU cache) -/

/-- The process-wide `OAuthConfig.cache` (OAuthConfig.ts lines 20-23),
modelled as an association list keyed by the issuer string. The scenarios
proved stay far below the LRU's capacity (500) and TTL (7 days), so
eviction never fires in them and is not modelled. -/
def ConfigCache := List (String × JsonDoc)

/-- `OAuthConfig.getProtectedResourceDiscovery` (OAuthConfig.ts lines
91-135): returns the cached document for the issuer when present; otherwise
inspects the response — JWT media type is rejected with an error, a parsed
JSON body is cached under the issuer key and returned, a parse failure is an
invalid-document error, a non-ok response is `null`. Returns the result
together with the cache left behind for the next call. -/
def OAuthConfig.getProtectedResourceDiscovery (cache : ConfigCache)
    (issuer : String) (res : Response) :
    Except String (Option JsonDoc) × ConfigCache :=
  match cache.lookup issuer with
  | some v => (.ok (some v), cache)
  | none =>
      if res.ok then
        if strIncludes (res.contentType.getD "")
            PROTECTED_RESOURCE_DISCOVERY_JWT_MEDIA_TYPE then
          (.error (PROTECTED_RESOURCE_DISCOVERY_JWT_MEDIA_TYPE ++ " is not supported"),
           cache)
        else
          match res.jsonBody with
          | some j => (.ok (some j), (issuer, j) :: cache)
          | none => (.error ("Invalid protected resource discovery: " ++ res.url), cache)
      else (.ok none, cache)

/-- Two successive `OAuthDiscovery.getProtectedResourceDiscovery` calls with
the same identifier: the class is stateless (private constructor, no static
mutable field), so each call is a function of its own response alone. -/
def twoDiscoveryCalls (issuer : URLM) (resourcePath : Option String)
    (optsJwt : Option JwtOpts) (env : JwtEnv) (res1 res2 : Response) :
    Except DiscErr (Option PRResult) × Except DiscErr (Option PRResult) :=
  (getProtectedResourceDiscovery issuer resourcePath optsJwt env res1,
   getProtectedResourceDiscovery issuer resourcePath optsJwt env res2)

/-! ### Helper predicates and concrete runs used by the theorems -/

/-- Does a discovery outcome consist of a thrown error whose message starts
with `"Verification required"`? (`leadMatch` is the prefix test.) -/
def isVerificationRequiredFailure : Except DiscErr (Option PRResult) → Bool
  | .error (.verificationRequired m) => leadMatch "Verification required".data m.data
  | _ => false

/-- A jose environment for runs in which no JWT is ever decoded or
verified. -/
def envUnused : JwtEnv :=
  ⟨fun _ => .error "decodeJwt unreachable", fun _ => .error "jwtVerify unreachable"⟩

/-- A 2xx response declaring the JWT media type; used with no verification
policy supplied. -/
def jwtBodyResponse : Response :=
  { ok := true
    contentType := some "application/oauth-protected-resource-jwt"
    textBody := "a.b.c"
    url := "https://resource.example.com/.well-known/oauth-protected-resource" }

/-- A 2xx plain-JSON response carrying a `signed_metadata` claim; used with
no verification policy supplied. -/
def signedMetadataJsonResponse : Response :=
  { ok := true
    contentType := some "application/oauth-protected-resource+json"
    jsonBody := some
      { signed_metadata := some "a.b.c"
        resource := some (.str "https://resource.example.com")
        authorization_servers := some (.arr ["https://as.example.com"]) }
    url := "https://resource.example.com/.well-known/oauth-protected-resource" }

/-- Signed payload that omits `bearer_methods_supported` and
`resource_documentation`. -/
def signedPayloadSparse : SMPayload :=
  { resource := some (.str "https://r.example.com")
    authorization_servers := some (.arr ["https://as-signed.example.com"]) }

/-- A jose environment that verifies every token to `signedPayloadSparse`. -/
def envSparse : JwtEnv :=
  ⟨fun _ => .ok signedPayloadSparse, fun _ => .ok signedPayloadSparse⟩

/-- Plain JSON document with its own `bearer_methods_supported` and
`resource_documentation` values plus a `signed_metadata` claim. -/
def plainDocWithSigned : JsonDoc :=
  { signed_metadata := some "h.p.s"
    resource := some (.str "https://r.example.com")
    authorization_servers := some (.arr ["https://as-plain.example.com"])
    bearer_methods_supported := some (.arr ["body"])
    resource_documentation := some (.str "https://r.example.com/docs") }

/-- 2xx JSON response delivering `plainDocWithSigned`. -/
def plainDocWithSignedResponse : Response :=
  { ok := true
    contentType := some "application/oauth-protected-resource+json"
    jsonBody := some plainDocWithSigned
    url := "https://r.example.com/.well-known/oauth-protected-resource" }

/-- PKCE-supporting configuration whose `additionalParams` smuggles in a
`nonce` entry. -/
def pkceCfgWithNonceParam : ClientConfigM :=
  { redirectUri := "https://app.example.com/cb"
    scopes := ["openid"]
    additionalParams := [("nonce", "attacker-nonce")]
    supportsPKCE := true }

/-- A concrete flow state with a memoized challenge. -/
def flowStateMemoized : OAuthStateM :=
  { state := "st1", nonce := "n1", codeVerifier := "cv1", pkce := some "ch1" }

/-- A concrete deterministic stand-in for the external SHA-256/base64url
challenge derivation. -/
def hashStub (s : String) : String := s ++ "#challenge"

/-- Plain JSON discovery document used by the C9 witness run. -/
def c9Doc : JsonDoc :=
  { resource := some (.str "https://r2.example.com")
    authorization_servers := some (.arr ["https://as9.example.com"]) }

/-- 2xx JSON response delivering `c9Doc`. -/
def c9Response : Response :=
  { ok := true
    contentType := some "application/oauth-protected-resource+json"
    jsonBody := some c9Doc
    url := "https://r2.example.com/.well-known/oauth-protected-resource" }

/-- String-to-URL parse stub standing in for `new URL(...)` on absolute
URLs without a path. -/
def parseStub (s : String) : URLM := ⟨s, "/"⟩

/-- Plain discovery document naming `https://as1.example.com`. -/
def cachedDocV1 : JsonDoc :=
  { resource := some (.str "https://r.example.com")
    authorization_servers := some (.arr ["https://as1.example.com"]) }

/-- Plain discovery document naming `https://as2.example.com`. -/
def cachedDocV2 : JsonDoc :=
  { resource := some (.str "https://r.example.com")
    authorization_servers := some (.arr ["https://as2.example.com"]) }

/-- A 2xx JSON response delivering `cachedDocV1`. -/
def cachedResponseV1 : Response :=
  { ok := true
    contentType := some "application/oauth-protected-resource+json"
    jsonBody := some cachedDocV1
    url := "https://r.example.com/.well-known/oauth-protected-resource" }

/-- A 2xx JSON response delivering `cachedDocV2`. -/
def cachedResponseV2 : Response :=
  { ok := true
    contentType := some "application/oauth-protected-resource+json"
    jsonBody := some cachedDocV2
    url := "https://r.example.com/.well-known/oauth-protected-resource" }

/-- A configuration for a server that does not support PKCE, whose
additional parameters avoid the reserved query keys. -/
def nonPkceCfg : ClientConfigM :=
  { redirectUri := "https://app.example.com/cb"
    scopes := ["openid", "email"]
    additionalParams := [("prompt", "consent")]
    supportsPKCE := false }

/-- A 2xx plain-JSON discovery response whose `resource` claim names a
different resource than the one the request was made for. -/
def mismatchedPlainResponse : Response :=
  { ok := true
    contentType := some "application/oauth-protected-resource+json"
    jsonBody := some
      { resource := some (.str "https://other.example.com")
        authorization_servers := some (.arr ["https://as.example.com"]) }
    url := "https://resource.example.com/.well-known/oauth-protected-resource" }

/-- C1. The claim states that for a 2xx response, whether claims come from a
verified JWT or from plain JSON, a `resource` claim differing from the
canonical request resource identifier makes `getProtectedResourceDiscovery`
return null. The plain-JSON path (part_002 lines 264-271) performs no such
comparison: requesting `https://resource.example.com` and receiving plain
JSON whose `resource` is `https://other.example.com` returns the metadata,
not null. -/
theorem c1_plain_json_binding_not_enforced :
    requestResourceIdFromIssuer ⟨"https://resource.example.com", "/"⟩ none
        = "https://resource.example.com"
    ∧ getProtectedResourceDiscovery ⟨"https://resource.example.com", "/"⟩ none
        none envUnused mismatchedPlainResponse
        = .ok (some { resource := "https://other.example.com"
                      authorization_servers := ["https://as.example.com"] })
    ∧ ("https://other.example.com" : String) ≠ "https://resource.example.com" := by
  refine ⟨by decide, rfl, by decide⟩

/-- C4 counterexample. The claim states that a failure of the token exchange
that is not a provider client error propagates unchanged and the call never
silently resolves to undefined. For any non-`ClientError` failure (here a
network reset), the `catch` block of `getTokensFromCodeGrant`
(OAuthClient.ts lines 95-108) rethrows nothing, so the call resolves to
`undefined` and no error reaches the caller. -/
theorem c4_other_error_swallowed :
    getTokensFromCodeGrant (.otherError "read ECONNRESET") = .ok none
    ∧ (getTokensFromCodeGrant (.otherError "read ECONNRESET")).isOk = true := by
  exact ⟨rfl, rfl⟩

/-- C5. The claim states that with a storage provider configured, the save
of the state record completes (or surfaces its failure) before the
authorization URL is returned. With an asynchronous provider the save
promise is never awaited (`saveState`, OAuthClient.ts line 68), so the URL
is returned while the save is still pending: the save settles only after
`urlReturned`. With a synchronous provider (and in the no-storage case) the
claimed ordering does hold, which shows the model distinguishes the two. -/
theorem c5_async_save_not_awaited :
    createAuthorizationUrlEvents (some .async)
        = [.saveInvoked, .urlReturned, .saveSettled]
    ∧ occursBefore .saveSettled .urlReturned
        (createAuthorizationUrlEvents (some .async)) = false
    ∧ occursBefore .saveSettled .urlReturned
        (createAuthorizationUrlEvents (some .sync)) = true := by
  refine ⟨rfl, by decide, by decide⟩

/-- C6. The claim states that a parsed storage entry lacking either the
`state` or the `config` sub-record is treated as invalid and never yields a
reconstructed client. The check on OAuthClient.ts line 154 uses
`!("state" in json) && !("config" in json)`, rejecting only when **both**
are missing: an entry carrying only `config` is accepted and yields a client
whose `OAuthState` is freshly generated random material, and an entry
carrying only `state` fails with a `TypeError` from
`ConfigClass.fromJSON(undefined)`, not with the invalid-state error. -/
theorem c6_single_subrecord_not_rejected :
    OAuthClient.fromStorage ⟨"rs", "rn", "rv"⟩ "k" (.parsedObj none (some "cfg"))
        = .ok { state := { state := "rs", nonce := "rn", codeVerifier := "rv"
                           pkce := none }
                config := "cfg" }
    ∧ OAuthClient.fromStorage ⟨"rs", "rn", "rv"⟩ "k"
        (.parsedObj (some { state := some "s1", nonce := some "n1"
                            pkce := none, codeVerifier := some "v1" }) none)
        = .error (.typeError "Cannot read properties of undefined (reading client_id)")
    ∧ OAuthClient.fromStorage ⟨"rs", "rn", "rv"⟩ "k" (.parsedObj none none)
        = .error (.stateError "State k is invalid") := by
  refine ⟨rfl, rfl, rfl⟩

/-- C10 counterexample. The claim states metadata is never cached internally:
the second of two calls with the same resource identifier is a determined
function of its own fetched response. For `OAuthConfig`'s discovery
(OAuthConfig.ts lines 91-135) this fails: starting from an empty cache,
a first call that fetched document V1 leaves a cache entry, and a second
call whose own response carries document V2 returns V1 — while the same
second response processed after a first call that fetched V2 returns V2.
Same second response, different results, so the second call's result is not
a function of that call's own response. -/
theorem c10_config_discovery_is_cached :
    (OAuthConfig.getProtectedResourceDiscovery
        (OAuthConfig.getProtectedResourceDiscovery [] "https://r.example.com"
          cachedResponseV1).2
        "https://r.example.com" cachedResponseV2).1 = .ok (some cachedDocV1)
    ∧ (OAuthConfig.getProtectedResourceDiscovery
        (OAuthConfig.getProtectedResourceDiscovery [] "https://r.example.com"
          cachedResponseV2).2
        "https://r.example.com" cachedResponseV2).1 = .ok (some cachedDocV2)
    ∧ cachedDocV1 ≠ cachedDocV2 := by
  refine ⟨rfl, rfl, by decide⟩

/-- Serializing then deserializing an `OAuthState` reproduces it exactly:
every `toJSON` field is non-nullish (except a possibly absent `pkce`, which
`Option.bind` transports unchanged), so none of the constructor's random
fallbacks fire. -/
theorem OAuthState.fromJSON_toJSON (rand : Rand) (fs : OAuthStateM) :
    OAuthState.fromJSON rand (OAuthState.toJSON fs) = fs :=
  rfl

/-- C2. Mandatory verification: a 2xx response that is signed metadata —
JWT media type body, or plain JSON carrying a (non-empty, hence truthy)
`signed_metadata` JWT string — called without `options.jwt` always produces
a thrown error whose message starts with `"Verification required"`; since
`isVerificationRequiredFailure` only holds of `.error` outcomes, the call
in particular never returns claims or null. -/
theorem c2_mandatory_verification (issuer : URLM) (resourcePath : Option String)
    (env : JwtEnv) (res : Response) (j : JsonDoc)
    (hok : res.ok = true)
    (hsig : strIncludes (res.contentType.getD "")
        PROTECTED_RESOURCE_DISCOVERY_JWT_MEDIA_TYPE = true
      ∨ (res.jsonBody = some j ∧ truthyStr j.signed_metadata = true)) :
    isVerificationRequiredFailure
      (getProtectedResourceDiscovery issuer resourcePath none env res) = true := by
  by_cases hct : strIncludes (res.contentType.getD "")
      PROTECTED_RESOURCE_DISCOVERY_JWT_MEDIA_TYPE = true
  · simp only [getProtectedResourceDiscovery, hok, hct, Bool.not_true, if_true, if_false,
      Bool.false_eq_true, ite_false, ite_true]
    decide
  · rcases hsig with h | ⟨hj, hs⟩
    · exact absurd h hct
    · rw [Bool.not_eq_true] at hct
      simp only [getProtectedResourceDiscovery, hok, hct, hj, hs, Bool.not_true,
        Bool.false_eq_true, ite_false, ite_true]
      decide

/-- C2 witness: concrete 2xx runs — a JWT-media-type body and a plain-JSON
body carrying `signed_metadata` — with no verification policy supplied both
end in a "Verification required" failure. -/
theorem c2_mandatory_verification_witness :
    isVerificationRequiredFailure
      (getProtectedResourceDiscovery ⟨"https://resource.example.com", "/"⟩ none none
        envUnused jwtBodyResponse) = true
    ∧ isVerificationRequiredFailure
      (getProtectedResourceDiscovery ⟨"https://resource.example.com", "/"⟩ none none
        envUnused signedMetadataJsonResponse) = true := by
  constructor
  · exact c2_mandatory_verification ⟨"https://resource.example.com", "/"⟩ none
      envUnused jwtBodyResponse {} rfl (Or.inl (by decide))
  · exact c2_mandatory_verification ⟨"https://resource.example.com", "/"⟩ none
      envUnused signedMetadataJsonResponse
      { signed_metadata := some "a.b.c"
        resource := some (.str "https://resource.example.com")
        authorization_servers := some (.arr ["https://as.example.com"]) }
      rfl (Or.inr ⟨rfl, by decide⟩)

/-- C3 counterexample. The claim states that fields absent from the signed
payload keep the plain-JSON value, naming `bearer_methods_supported` and
`resource_documentation`. In this run the verified signed payload omits
both, the plain JSON supplies `["body"]` and a documentation URL, yet the
merged result carries `payloadToResult`'s defaults `["header"]` and `""`,
because the normalized signed object always has those keys and the spread
`{ ...rest, ...merged }` lets them override. -/
theorem c3_defaults_clobber_plain_values :
    getProtectedResourceDiscovery ⟨"https://r.example.com", "/"⟩ none (some .jwks)
        envSparse plainDocWithSignedResponse
      = .ok (some { resource := "https://r.example.com"
                    authorization_servers := ["https://as-signed.example.com"]
                    bearer_methods_supported := some (.arr ["header"])
                    resource_documentation := some (.str "") })
    ∧ plainDocWithSigned.bearer_methods_supported = some (.arr ["body"])
    ∧ plainDocWithSigned.resource_documentation
        = some (.str "https://r.example.com/docs")
    ∧ signedPayloadSparse.bearer_methods_supported = none
    ∧ signedPayloadSparse.resource_documentation = none
    ∧ some (JSVal.arr ["header"]) ≠ some (JSVal.arr ["body"])
    ∧ some (JSVal.str "") ≠ some (JSVal.str "https://r.example.com/docs") := by
  refine ⟨rfl, rfl, rfl, rfl, rfl, by decide, by decide⟩

/-- C3 as amended: when plain JSON carries a `signed_metadata` JWT that
verifies (fixed-JWKS policy) to a payload with a string `resource` equal to
the request identifier and a non-empty `authorization_servers` array, the
returned metadata is the normalized signed result spread over the plain
document: fields present in the signed payload take the signed value;
`bearer_methods_supported` and `resource_documentation` take the signed
value or the normalization defaults `["header"]` / `""` even when absent
from the signed payload; only `resource_endpoints` and
`resource_signing_alg_values_supported` keep the plain value when absent
from the signed payload. -/
theorem c3_amended_merge_characterization (issuer : URLM) (resourcePath : Option String)
    (env : JwtEnv) (res : Response) (json : JsonDoc) (jwt : String)
    (payload : SMPayload) (r : String) (xs : List String)
    (hok : res.ok = true)
    (hct : strIncludes (res.contentType.getD "")
        PROTECTED_RESOURCE_DISCOVERY_JWT_MEDIA_TYPE = false)
    (hjson : res.jsonBody = some json)
    (hsm : json.signed_metadata = some jwt)
    (hne : jwt ≠ "")
    (hverify : env.verify jwt = .ok payload)
    (hres : payload.resource = some (.str r))
    (hxs : payload.authorization_servers = some (.arr xs))
    (hnonempty : xs ≠ [])
    (hbind : r = requestResourceIdFromIssuer issuer resourcePath) :
    getProtectedResourceDiscovery issuer resourcePath (some .jwks) env res
      = .ok (some {
          resource := r
          authorization_servers := xs
          bearer_methods_supported :=
            some (.arr (match payload.bearer_methods_supported with
              | some (.arr bs) => if bs.isEmpty then ["header"] else bs
              | _ => ["header"]))
          resource_documentation :=
            some (.str (match payload.resource_documentation with
              | some (.str d) => d
              | _ => ""))
          resource_endpoints :=
            (match payload.resource_endpoints with
              | some v => some v
              | none => json.resource_endpoints)
          resource_signing_alg_values_supported :=
            (match payload.resource_signing_alg_values_supported with
              | some v => some v
              | none => json.resource_signing_alg_values_supported) }) := by
  have hisEmpty : xs.isEmpty = false := by
    cases xs with
    | nil => exact absurd rfl hnonempty
    | cons a t => rfl
  have htruthy : truthyStr json.signed_metadata = true := by
    rw [hsm]; simpa [truthyStr] using hne
  have hgetD : json.signed_metadata.getD "" = jwt := by rw [hsm]; rfl
  simp only [getProtectedResourceDiscovery, hok, hct, hjson, htruthy, hgetD,
    verifySignedMetadata, hverify, payloadToResult, hres, hxs, hisEmpty,
    bindCheck, ← hbind, if_pos rfl, mergeOver, Bool.not_true, Bool.false_eq_true,
    ite_false, ite_true]

/-- C3 witness: the amended merge characterization applied to the concrete
sparse-signed-payload run — the merged result takes the signed resource and
server list with the normalization defaults for the two clobbered fields. -/
theorem c3_amended_merge_characterization_witness :
    getProtectedResourceDiscovery ⟨"https://r.example.com", "/"⟩ none (some .jwks)
        envSparse plainDocWithSignedResponse
      = .ok (some { resource := "https://r.example.com"
                    authorization_servers := ["https://as-signed.example.com"]
                    bearer_methods_supported := some (.arr ["header"])
                    resource_documentation := some (.str "") }) := by
  exact c3_amended_merge_characterization ⟨"https://r.example.com", "/"⟩ none envSparse
    plainDocWithSignedResponse plainDocWithSigned "h.p.s" signedPayloadSparse
    "https://r.example.com" ["https://as-signed.example.com"]
    rfl (by decide) rfl rfl (by decide) rfl rfl rfl (by decide) (by decide)

/-- C4 as amended: the token exchange wraps a provider-reported client error
into an `OAuthClientError` carrying the original cause and, when available,
the parsed provider error body as reason; a success returns the tokens; any
other failure is caught without being rethrown, so the call resolves to
`undefined` rather than propagating the error. -/
theorem c4_amended_exchange_outcomes (t causeMsg m : String) (reason : Option String) :
    getTokensFromCodeGrant (.success t) = .ok (some t)
    ∧ getTokensFromCodeGrant (.clientError causeMsg reason)
        = .error { message := "Failed to get tokens from code grant"
                   cause := causeMsg
                   reason := reason }
    ∧ getTokensFromCodeGrant (.otherError m) = .ok none :=
  ⟨rfl, rfl, rfl⟩

/-- C7. Serialize/deserialize preserves `state`, `nonce`, `code_verifier`
exactly; the code challenge of the round-tripped state equals the original
challenge; when a (truthy) challenge was memoized before serialization it is
returned as-is with no state write (not recomputed); when none was memoized
the challenge is recomputed deterministically from `code_verifier`. -/
theorem c7_serialize_roundtrip (H : String → String) (rand : Rand) (fs : OAuthStateM) :
    (OAuthState.fromJSON rand (OAuthState.toJSON fs)).state = fs.state
    ∧ (OAuthState.fromJSON rand (OAuthState.toJSON fs)).nonce = fs.nonce
    ∧ (OAuthState.fromJSON rand (OAuthState.toJSON fs)).codeVerifier = fs.codeVerifier
    ∧ (OAuthState.getCodeChallenge H (OAuthState.fromJSON rand (OAuthState.toJSON fs))).1
        = (OAuthState.getCodeChallenge H fs).1
    ∧ (∀ p, fs.pkce = some p → p ≠ "" →
        (OAuthState.getCodeChallenge H (OAuthState.fromJSON rand (OAuthState.toJSON fs))).1
            = p
        ∧ (OAuthState.getCodeChallenge H (OAuthState.fromJSON rand (OAuthState.toJSON fs))).2
            = OAuthState.fromJSON rand (OAuthState.toJSON fs))
    ∧ (fs.pkce = none →
        (OAuthState.getCodeChallenge H (OAuthState.fromJSON rand (OAuthState.toJSON fs))).1
          = H fs.codeVerifier) := by
  rw [OAuthState.fromJSON_toJSON]
  refine ⟨rfl, rfl, rfl, rfl, ?_, ?_⟩
  · intro p hp hne
    constructor <;> simp [OAuthState.getCodeChallenge, hp, hne]
  · intro hnone
    simp [OAuthState.getCodeChallenge, hnone]

/-- C7 witness: a concrete state with memoized challenge `"ch1"` round-trips
through JSON and still reports `"ch1"`, matching the original challenge. -/
theorem c7_serialize_roundtrip_witness :
    (OAuthState.getCodeChallenge hashStub
        (OAuthState.fromJSON ⟨"rs", "rn", "rv"⟩ (OAuthState.toJSON flowStateMemoized))).1
      = "ch1"
    ∧ (OAuthState.getCodeChallenge hashStub
        (OAuthState.fromJSON ⟨"rs", "rn", "rv"⟩ (OAuthState.toJSON flowStateMemoized))).1
      = (OAuthState.getCodeChallenge hashStub flowStateMemoized).1 := by
  refine ⟨((c7_serialize_roundtrip hashStub ⟨"rs", "rn", "rv"⟩
      flowStateMemoized).2.2.2.2.1 "ch1" rfl (by decide)).1,
    (c7_serialize_roundtrip hashStub ⟨"rs", "rn", "rv"⟩ flowStateMemoized).2.2.2.1⟩

/-- Looking up the key just upserted yields the upserted value. -/
theorem getParam_upsert_self (ps : List (String × String)) (k v : String) :
    getParam (upsert ps (k, v)) k = some v := by
  induction ps with
  | nil => simp [upsert, getParam]
  | cons p t ih =>
      by_cases h : p.1 = k
      · simp [upsert, h, getParam]
      · simp [upsert, h, getParam, ih]

/-- Upserting a different key leaves a lookup unchanged. -/
theorem getParam_upsert_other (ps : List (String × String)) (k k' v : String)
    (h : k' ≠ k) :
    getParam (upsert ps (k', v)) k = getParam ps k := by
  induction ps with
  | nil => simp [upsert, getParam, h]
  | cons p t ih =>
      by_cases hp : p.1 = k'
      · have hk : p.1 ≠ k := by rw [hp]; exact h
        simp [upsert, hp, getParam, hk, h]
      · by_cases hk : p.1 = k
        · have h' : ¬(k = k') := fun hkk => h hkk.symm
          simp [upsert, hp, getParam, hk, h']
        · simp [upsert, hp, getParam, hk, ih]

/-- Folding upserts whose keys all differ from `k` leaves the lookup of `k`
unchanged. -/
theorem getParam_foldl_upsert (adds ps : List (String × String)) (k : String)
    (h : ∀ kv ∈ adds, kv.1 ≠ k) :
    getParam (adds.foldl upsert ps) k = getParam ps k := by
  induction adds generalizing ps with
  | nil => rfl
  | cons a t ih =>
      rw [List.foldl_cons, ih (upsert ps a) (fun kv hkv => h kv (List.mem_cons_of_mem a hkv))]
      obtain ⟨a1, a2⟩ := a
      exact getParam_upsert_other ps k a1 a2 (h (a1, a2) (List.mem_cons_self _ _))

/-- C8 counterexample. The claim states that with a PKCE-supporting
configuration the built parameters never include `nonce`. The
`additionalParams` record is spread last into the parameter object
(OAuthClient.ts line 54), so a configuration whose additional parameters
carry a `nonce` entry produces a `nonce` query parameter even though
`supportsPKCE` is true. -/
theorem c8_pkce_params_can_carry_nonce :
    pkceCfgWithNonceParam.supportsPKCE = true
    ∧ getParam (createAuthorizationUrlParams pkceCfgWithNonceParam flowStateMemoized
        hashStub " ") "nonce" = some "attacker-nonce" := by
  refine ⟨rfl, by decide⟩

/-- C8 as amended: for configurations whose `additionalParams` bind none of
the reserved keys `nonce`, `code_challenge`, `state`,
`code_challenge_method`: with PKCE support the parameters carry no `nonce`;
without PKCE support they carry `nonce` equal to the flow state's nonce; and
in both cases they carry `code_challenge` (the state's challenge), `state`,
and `code_challenge_method` fixed to `"S256"`. -/
theorem c8_amended_reserved_params (cfg : ClientConfigM) (fs : OAuthStateM)
    (H : String → String) (sep : String)
    (h : ∀ kv ∈ cfg.additionalParams,
      kv.1 ≠ "nonce" ∧ kv.1 ≠ "code_challenge" ∧ kv.1 ≠ "state"
        ∧ kv.1 ≠ "code_challenge_method") :
    (cfg.supportsPKCE = true →
      getParam (createAuthorizationUrlParams cfg fs H sep) "nonce" = none)
    ∧ (cfg.supportsPKCE = false →
      getParam (createAuthorizationUrlParams cfg fs H sep) "nonce" = some fs.nonce)
    ∧ getParam (createAuthorizationUrlParams cfg fs H sep) "code_challenge"
        = some (OAuthState.getCodeChallenge H fs).1
    ∧ getParam (createAuthorizationUrlParams cfg fs H sep) "state" = some fs.state
    ∧ getParam (createAuthorizationUrlParams cfg fs H sep) "code_challenge_method"
        = some "S256" := by
  have hn := getParam_foldl_upsert cfg.additionalParams
    [("redirect_uri", cfg.redirectUri),
     ("scope", String.intercalate sep cfg.scopes),
     ("code_challenge", (OAuthState.getCodeChallenge H fs).1),
     ("state", fs.state),
     ("code_challenge_method", OAuthState.CODE_CHALLENGE_METHOD)] "nonce"
    (fun kv hkv => (h kv hkv).1)
  have hcc := getParam_foldl_upsert cfg.additionalParams
    [("redirect_uri", cfg.redirectUri),
     ("scope", String.intercalate sep cfg.scopes),
     ("code_challenge", (OAuthState.getCodeChallenge H fs).1),
     ("state", fs.state),
     ("code_challenge_method", OAuthState.CODE_CHALLENGE_METHOD)] "code_challenge"
    (fun kv hkv => (h kv hkv).2.1)
  have hst := getParam_foldl_upsert cfg.additionalParams
    [("redirect_uri", cfg.redirectUri),
     ("scope", String.intercalate sep cfg.scopes),
     ("code_challenge", (OAuthState.getCodeChallenge H fs).1),
     ("state", fs.state),
     ("code_challenge_method", OAuthState.CODE_CHALLENGE_METHOD)] "state"
    (fun kv hkv => (h kv hkv).2.2.1)
  have hm := getParam_foldl_upsert cfg.additionalParams
    [("redirect_uri", cfg.redirectUri),
     ("scope", String.intercalate sep cfg.scopes),
     ("code_challenge", (OAuthState.getCodeChallenge H fs).1),
     ("state", fs.state),
     ("code_challenge_method", OAuthState.CODE_CHALLENGE_METHOD)] "code_challenge_method"
    (fun kv hkv => (h kv hkv).2.2.2)
  refine ⟨?_, ?_, ?_, ?_, ?_⟩
  · intro hp
    simp only [createAuthorizationUrlParams, hp, Bool.not_true, Bool.false_eq_true,
      ite_false]
    rw [hn]
    simp [getParam]
  · intro hp
    simp only [createAuthorizationUrlParams, hp, Bool.not_false, ite_true]
    exact getParam_upsert_self _ _ _
  · by_cases hp : cfg.supportsPKCE
    · simp only [createAuthorizationUrlParams, hp, Bool.not_true, Bool.false_eq_true,
        ite_false]
      rw [hcc]
      simp [getParam]
    · have hp' : cfg.supportsPKCE = false := by simpa using hp
      simp only [createAuthorizationUrlParams, hp', Bool.not_false, ite_true]
      rw [getParam_upsert_other _ "code_challenge" "nonce" fs.nonce (by decide), hcc]
      simp [getParam]
  · by_cases hp : cfg.supportsPKCE
    · simp only [createAuthorizationUrlParams, hp, Bool.not_true, Bool.false_eq_true,
        ite_false]
      rw [hst]
      simp [getParam]
    · have hp' : cfg.supportsPKCE = false := by simpa using hp
      simp only [createAuthorizationUrlParams, hp', Bool.not_false, ite_true]
      rw [getParam_upsert_other _ "state" "nonce" fs.nonce (by decide), hst]
      simp [getParam]
  · by_cases hp : cfg.supportsPKCE
    · simp only [createAuthorizationUrlParams, hp, Bool.not_true, Bool.false_eq_true,
        ite_false]
      rw [hm]
      simp [getParam, OAuthState.CODE_CHALLENGE_METHOD]
    · have hp' : cfg.supportsPKCE = false := by simpa using hp
      simp only [createAuthorizationUrlParams, hp', Bool.not_false, ite_true]
      rw [getParam_upsert_other _ "code_challenge_method" "nonce" fs.nonce (by decide), hm]
      simp [getParam, OAuthState.CODE_CHALLENGE_METHOD]

/-- C8 witness: a concrete non-PKCE configuration with a benign additional
parameter yields `nonce` equal to the flow state's nonce and
`code_challenge_method` `"S256"`. -/
theorem c8_amended_reserved_params_witness :
    getParam (createAuthorizationUrlParams nonPkceCfg flowStateMemoized hashStub " ")
        "nonce" = some "n1"
    ∧ getParam (createAuthorizationUrlParams nonPkceCfg flowStateMemoized hashStub " ")
        "code_challenge_method" = some "S256" := by
  exact ⟨(c8_amended_reserved_params nonPkceCfg flowStateMemoized hashStub " "
      (by decide)).2.1 rfl,
    (c8_amended_reserved_params nonPkceCfg flowStateMemoized hashStub " "
      (by decide)).2.2.2.2⟩

/-- C9. `resolveAuthorizationServerUrl` with `oidc` or `oauth2` returns the
input normalized to a URL, independent of the jose environment and of any
HTTP response (no discovery); with `protected-resource` it propagates
discovery errors, fails with the assertion error
`"No authorization servers found"` when discovery yields null or an empty
`authorization_servers`, and otherwise returns exactly the first entry of
`authorization_servers`, parsed as a URL — never any other entry. -/
theorem c9_resolve_authorization_server (p : String → URLM) (issuer : URLM)
    (rp : Option String) (jopts : Option JwtOpts) (env : JwtEnv) (res : Response) :
    resolveAuthorizationServerUrl p issuer .oidc rp jopts env res = .ok issuer
    ∧ resolveAuthorizationServerUrl p issuer .oauth2 rp jopts env res = .ok issuer
    ∧ (∀ e, getProtectedResourceDiscovery issuer rp jopts env res = .error e →
        resolveAuthorizationServerUrl p issuer .protectedResource rp jopts env res
          = .error (.disc e))
    ∧ (getProtectedResourceDiscovery issuer rp jopts env res = .ok none →
        resolveAuthorizationServerUrl p issuer .protectedResource rp jopts env res
          = .error (.assertion "No authorization servers found"))
    ∧ (∀ r, getProtectedResourceDiscovery issuer rp jopts env res = .ok (some r) →
        r.authorization_servers = [] →
        resolveAuthorizationServerUrl p issuer .protectedResource rp jopts env res
          = .error (.assertion "No authorization servers found"))
    ∧ (∀ r a rest, getProtectedResourceDiscovery issuer rp jopts env res = .ok (some r) →
        r.authorization_servers = a :: rest →
        resolveAuthorizationServerUrl p issuer .protectedResource rp jopts env res
          = .ok (p a)) := by
  refine ⟨rfl, rfl, ?_, ?_, ?_, ?_⟩
  · intro e he
    simp [resolveAuthorizationServerUrl, he]
  · intro he
    simp [resolveAuthorizationServerUrl, he]
  · intro r hr hempty
    simp [resolveAuthorizationServerUrl, hr, hempty]
  · intro r a rest hr hcons
    simp [resolveAuthorizationServerUrl, hr, hcons]

/-- C9 witness: a concrete discovery run returning two facts — `oidc`
returns the issuer untouched, and `protected-resource` on a response whose
document lists exactly `["https://as9.example.com"]` resolves to that first
entry parsed as a URL. -/
theorem c9_resolve_authorization_server_witness :
    resolveAuthorizationServerUrl parseStub ⟨"https://r2.example.com", "/"⟩ .oidc none
        none envUnused c9Response = .ok ⟨"https://r2.example.com", "/"⟩
    ∧ resolveAuthorizationServerUrl parseStub ⟨"https://r2.example.com", "/"⟩
        .protectedResource none none envUnused c9Response
        = .ok (parseStub "https://as9.example.com") := by
  refine ⟨(c9_resolve_authorization_server parseStub ⟨"https://r2.example.com", "/"⟩
      none none envUnused c9Response).1,
    (c9_resolve_authorization_server parseStub ⟨"https://r2.example.com", "/"⟩
      none none envUnused c9Response).2.2.2.2.2
      { resource := "https://r2.example.com"
        authorization_servers := ["https://as9.example.com"] }
      "https://as9.example.com" [] rfl rfl⟩

/-- C10 as amended: `OAuthDiscovery.getProtectedResourceDiscovery` is
stateless — in two successive calls the second result is exactly the
function of that call's own response, whatever the first call processed —
whereas `OAuthConfig.getProtectedResourceDiscovery` keeps a process-wide
cache keyed by issuer: once a first call has fetched and cached a JSON
document, a second call for the same issuer returns that cached document,
regardless of its own response. -/
theorem c10_amended_cache_split (issuer : URLM) (rp : Option String)
    (opts : Option JwtOpts) (env : JwtEnv) (res1 res1' res2 : Response)
    (iss : String) (r1 r2 : Response) (j1 : JsonDoc)
    (hok : r1.ok = true)
    (hct : strIncludes (r1.contentType.getD "")
        PROTECTED_RESOURCE_DISCOVERY_JWT_MEDIA_TYPE = false)
    (hjson : r1.jsonBody = some j1) :
    (twoDiscoveryCalls issuer rp opts env res1 res2).2
        = getProtectedResourceDiscovery issuer rp opts env res2
    ∧ (twoDiscoveryCalls issuer rp opts env res1 res2).2
        = (twoDiscoveryCalls issuer rp opts env res1' res2).2
    ∧ (OAuthConfig.getProtectedResourceDiscovery
        (OAuthConfig.getProtectedResourceDiscovery [] iss r1).2 iss r2).1
        = .ok (some j1) := by
  refine ⟨rfl, rfl, ?_⟩
  simp [OAuthConfig.getProtectedResourceDiscovery, List.lookup, hok, hct, hjson]

/-- C10 witness: concrete two-call run of the cached `OAuthConfig` variant —
after a first call fetched document V1, a repeat call returns V1. -/
theorem c10_amended_cache_split_witness :
    (OAuthConfig.getProtectedResourceDiscovery
      (OAuthConfig.getProtectedResourceDiscovery [] "https://r.example.com"
        cachedResponseV1).2
      "https://r.example.com" cachedResponseV1).1 = .ok (some cachedDocV1) := by
  exact (c10_amended_cache_split ⟨"https://r.example.com", "/"⟩ none none envUnused
    cachedResponseV1 cachedResponseV1 cachedResponseV1 "https://r.example.com"
    cachedResponseV1 cachedResponseV1 cachedDocV1 rfl (by decide) rfl).2.2

end EzOAuth
